import Mathlib

/-!
Verification development for the GraphQL product-catalog query layer
(`saleor/graphql/product/schema.py`): argument validation, permission-gated
channel resolution, rank-sort rules for product search, single-entity
lookups with `ChannelContext` wrapping, and cursor-based connection
pagination.

External collaborators of the schema layer (argument validator, global-id
codec, default-channel provider, filter/sort engine, pagination engine,
domain resolvers) live outside the excerpted source; they are modelled from
the specification's description of their contracts, as marked on each
definition.  Definitions without such a mark are direct translations of the
source file.
-/

namespace SaleorProduct

/-- A requestor (authenticated user or app), reduced to the only datum this
layer consults: its set of permission codenames. -/
structure Requestor where
  permissions : List String
deriving DecidableEq, Repr

/-- Modelled from the spec: the fixed full-catalog-visibility permission set
(`ALL_PRODUCTS_PERMISSIONS` is imported from `saleor/product/models.py`,
which is not part of the excerpt).  The exact member names are immaterial to
the theorems; only that the set is fixed. -/
def ALL_PRODUCTS_PERMISSIONS : List String :=
  ["MANAGE_PRODUCTS", "MANAGE_ORDERS", "MANAGE_DISCOUNTS"]

/-- Modelled from the spec: the permission service
`has_any_permission(requestor, permission_set) -> bool`
(`saleor/permission/utils.py`, not in the excerpt): true iff the requestor
holds at least one permission of the set. -/
def has_one_of_permissions (r : Requestor) (perms : List String) : Bool :=
  perms.any (fun p => r.permissions.contains p)

/-- Site configuration, reduced to the only datum this layer consults:
the configured default channel slug, if any. -/
structure SiteConfig where
  default_channel_slug : Option String
deriving DecidableEq, Repr

/-- The error taxonomy of the layer, from the spec's section 7. -/
inductive GqlError where
  | invalidArguments (fields : List String)
  | invalidGlobalId (got expected : String)
  | noDefaultChannel
  | graphQLError (msg : String)
deriving DecidableEq, Repr

/-- Modelled from the spec: the default-channel provider
`get_default_channel_slug_or_graphql_error` (`graphql/channel/utils.py`,
not in the excerpt): returns the configured default channel slug and
fails with `NoDefaultChannel` when none is configured. -/
def get_default_channel_slug_or_graphql_error (cfg : SiteConfig) :
    Except GqlError String :=
  match cfg.default_channel_slug with
  | some slug => .ok slug
  | none => .error .noDefaultChannel

/-- Modelled from the spec: the argument validator
`validate_one_of_args_is_in_query` (`graphql/core/validators`, not in the
excerpt).  Arguments are given as (name, was-supplied) pairs; exactly one
must be supplied, otherwise the call fails with `InvalidArguments` naming
the offending fields. -/
def validate_one_of_args_is_in_query (args : List (String × Bool)) :
    Except GqlError Unit :=
  if (args.filter (fun a => a.2)).length = 1 then .ok ()
  else .error (.invalidArguments (args.map (fun a => a.1)))

/-- A global identifier: an externally-facing id encoding the entity type
together with the internal key. -/
structure GlobalId where
  ty : String
  key : String
deriving DecidableEq, Repr

/-- Modelled from the spec: the global-id codec
`from_global_id_or_error(id, expected_type) -> (type, raw_value)`
(`graphql/core/utils.py`, not in the excerpt), failing with
`InvalidGlobalId` when the encoded type does not match the expected
entity type. -/
def from_global_id_or_error (gid : GlobalId) (expected : String) :
    Except GqlError (String × String) :=
  if gid.ty = expected then .ok (gid.ty, gid.key)
  else .error (.invalidGlobalId gid.ty expected)

/-- A catalog category (channel-agnostic entity). -/
structure Category where
  id : Nat
  name : String
deriving DecidableEq, Repr

/-- A collection of products (channel-scoped entity). -/
structure Collection where
  id : Nat
deriving DecidableEq, Repr

/-- A product.  `rank` is the search-engine-computed relevance score of the
entity for the current search predicate (zero when the entity does not
match); `published` is a representative non-search filter attribute. -/
structure Product where
  id : Nat
  rank : Nat
  published : Bool
deriving DecidableEq, Repr

/-- A product variant (channel-scoped entity). -/
structure ProductVariant where
  id : Nat
deriving DecidableEq, Repr

/-- A digital content item (channel-agnostic at this layer). -/
structure DigitalContent where
  id : Nat
deriving DecidableEq, Repr

/-- A product type (channel-agnostic entity). -/
structure ProductType where
  id : Nat
deriving DecidableEq, Repr

/-- The channel-context envelope `ChannelContext(node, channel_slug)`:
an entity paired with the channel slug under which it was resolved. -/
structure ChannelContext (α : Type) where
  node : α
  channel_slug : Option String
deriving DecidableEq, Repr

/-- Page-availability flags of the cursor-pagination envelope. -/
structure PageInfo where
  hasNextPage : Bool
  hasPreviousPage : Bool
  startCursor : Option Nat
  endCursor : Option Nat
deriving DecidableEq, Repr

/-- An edge of a connection: an opaque cursor plus a node. -/
structure Edge (α : Type) where
  cursor : Nat
  node : α
deriving DecidableEq, Repr

/-- The cursor-pagination envelope: an ordered sequence of edges plus
page-availability flags. -/
structure Connection (α : Type) where
  edges : List (Edge α)
  pageInfo : PageInfo
deriving DecidableEq, Repr

/-- Edges for a page of nodes, with consecutive cursors starting at
`start`. -/
def mkEdges (start : Nat) : List α → List (Edge α)
  | [] => []
  | a :: as => ⟨start, a⟩ :: mkEdges (start + 1) as

/-- Start position encoded by an optional `after` cursor: resume strictly
after the cursor, or at the beginning. -/
def sliceStart : Option Nat → Nat
  | some c => c + 1
  | none => 0

/-- Modelled from the spec: the cursor pagination engine
`create_connection_slice` (`graphql/core/connection.py`, not in the
excerpt), forward (`first`/`after`) direction.  A cursor encodes the
absolute position of its row in the ordered collection; slicing with
`after = c` resumes strictly after position `c`; `has_next_page` is
computed by over-fetching one extra item beyond the requested count and
checking for its presence. -/
def create_connection_slice (l : List α) (first : Option Nat)
    (after : Option Nat) : Connection α :=
  let start := sliceStart after
  let rest := l.drop start
  let n := first.getD rest.length
  let lookahead := rest.take (n + 1)
  let page := lookahead.take n
  { edges := mkEdges start page
    pageInfo :=
      { hasNextPage := decide (n < lookahead.length)
        hasPreviousPage := decide (0 < start)
        startCursor := if page.isEmpty then none else some start
        endCursor := if page.isEmpty then none
                     else some (start + page.length - 1) } }

/-- The structured filter of the `products` query: a search predicate plus
a representative non-search field predicate. -/
structure ProductFilterInput where
  search : Option String
  is_published : Option Bool
deriving DecidableEq, Repr

/-- The `sort_by` input of the `products` query (`ProductOrder`):
a direction and an optional sort-field list. -/
structure ProductOrder where
  direction : String
  field : Option (List String)
deriving DecidableEq, Repr

/-- Modelled from the spec: the relevance-rank member of the product
sort-field enumeration (`sorters.py`, not in the excerpt).  Its field list
coincides with the one the source injects as the default search sort:
`["search_rank", "id"]`. -/
def ProductOrderField.RANK : List String := ["search_rank", "id"]

/-- The keyword arguments of the `products` query that this layer reads or
writes: the filter, the sort, the channel slot the resolver fills in, and
the forward pagination arguments. -/
structure ProductsKwargs where
  filter : Option ProductFilterInput
  sort_by : Option ProductOrder
  channel : Option String
  first : Option Nat
  after : Option Nat
deriving DecidableEq, Repr

/-- Whitespace test for `strip` (the default character set of Python's
`str.strip()`, restricted to the common ASCII whitespace characters). -/
def isStripChar (c : Char) : Bool :=
  c = ' ' || c = '\t' || c = '\n' || c = '\r'

/-- Python's `str.strip()`: remove leading and trailing whitespace. -/
def strip (s : String) : String :=
  ⟨((s.data.dropWhile isStripChar).reverse.dropWhile isStripChar).reverse⟩

/-- The ordering "descending relevance rank, ascending identifier as
tie-break" on products. -/
def rankOrder (a b : Product) : Prop :=
  b.rank < a.rank ∨ (b.rank = a.rank ∧ a.id ≤ b.id)

instance : DecidableRel rankOrder := fun a b =>
  inferInstanceAs (Decidable (_ ∨ _))

instance : IsTotal Product rankOrder where
  total a b := by
    unfold rankOrder
    rcases Nat.lt_trichotomy a.rank b.rank with h | h | h
    · exact Or.inr (Or.inl h)
    · rcases Nat.le_total a.id b.id with h' | h'
      · exact Or.inl (Or.inr ⟨h.symm, h'⟩)
      · exact Or.inr (Or.inr ⟨h, h'⟩)
    · exact Or.inl (Or.inl h)

instance : IsTrans Product rankOrder where
  trans a b c hab hbc := by
    unfold rankOrder at *
    rcases hab with h1 | ⟨h1, h1'⟩
    · rcases hbc with h2 | ⟨h2, _⟩
      · exact Or.inl (h2.trans h1)
      · exact Or.inl (lt_of_eq_of_lt h2 h1)
    · rcases hbc with h2 | ⟨h2, h2'⟩
      · exact Or.inl (lt_of_lt_of_eq h2 h1)
      · exact Or.inr ⟨h2.trans h1, h1'.trans h2'⟩

/-- Modelled from the spec: the filtering half of the generic filter/sort
engine for products (`graphql/core` filtersets, not in the excerpt).  The
search predicate keeps entities carrying a positive relevance score; an
absent, empty or whitespace-only search string imposes no predicate.  The
representative field predicate keeps entities whose `published` flag
matches. -/
def apply_product_filter (f : Option ProductFilterInput)
    (qs : List Product) : List Product :=
  match f with
  | none => qs
  | some flt =>
    let qs := if strip (flt.search.getD "") = "" then qs
              else qs.filter (fun p => p.rank ≠ 0)
    match flt.is_published with
    | none => qs
    | some b => qs.filter (fun p => p.published = b)

/-- Modelled from the spec: the sorting half of the generic filter/sort
engine for products.  Sorting by the relevance-rank field list with
descending direction orders by descending rank with ascending identifier as
tie-break; other sort keys are outside this model and leave the collection
order unchanged. -/
def apply_product_sort (sb : Option ProductOrder)
    (qs : List Product) : List Product :=
  match sb with
  | none => qs
  | some o =>
    if o.field = some ProductOrderField.RANK ∧ o.direction = "-" then
      qs.insertionSort rankOrder
    else qs

/-- Modelled from the spec: `filter_connection_queryset` for the `products`
query, composing structured filtering with sorting. -/
def filter_connection_queryset (qs : List Product)
    (kwargs : ProductsKwargs) : List Product :=
  apply_product_sort kwargs.sort_by (apply_product_filter kwargs.filter qs)

/-- The structured filter of the `categories` query. -/
structure CategoryFilterInput where
  search : Option String
deriving DecidableEq, Repr

/-- The keyword arguments of the `categories` query that this layer reads:
the filter and the forward pagination arguments. -/
structure CategoriesKwargs where
  filter : Option CategoryFilterInput
  first : Option Nat
  after : Option Nat
deriving DecidableEq, Repr

/-- Modelled from the spec: `filter_connection_queryset` for the
`categories` query.  The criteria are opaque to the schema layer; the
search predicate is modelled as an exact name match. -/
def filter_categories_queryset (qs : List Category)
    (kwargs : CategoriesKwargs) : List Category :=
  match kwargs.filter with
  | none => qs
  | some f =>
    match f.search with
    | none => qs
    | some s => qs.filter (fun c => c.name = s)

/-- The keyword arguments of the `collections` query that this layer reads
or writes: the channel slot the resolver fills in and the forward
pagination arguments (the filter and sort criteria are opaque and passed
through unmodified). -/
structure CollectionsKwargs where
  channel : Option String
  first : Option Nat
  after : Option Nat
deriving DecidableEq, Repr

/-- Modelled from the spec: `filter_connection_queryset` for the
`collections` query.  The criteria are opaque structured predicates passed
through to the external engine; no predicate semantics are specified, so
the engine is modelled as leaving the collection unchanged. -/
def filter_collections_queryset (qs : List Collection)
    (_kwargs : CollectionsKwargs) : List Collection :=
  qs

/-- A queryset paired with the channel slug under which it was resolved, as
returned by the domain resolver for product variants. -/
structure ChannelQsContext (α : Type) where
  qs : List α
  channel_slug : Option String
deriving DecidableEq, Repr

/-- The keyword arguments of the `productVariants` query that this layer
reads or writes: the channel slot the resolver fills in and the forward
pagination arguments. -/
structure VariantsKwargs where
  channel : Option String
  first : Option Nat
  after : Option Nat
deriving DecidableEq, Repr

/-- Modelled from the spec: `filter_connection_queryset` for the
`productVariants` query; as for collections, the opaque criteria are
modelled as leaving the collection unchanged. -/
def filter_variants_queryset (qs : List ProductVariant)
    (_kwargs : VariantsKwargs) : List ProductVariant :=
  qs

/-- Translation of `search_string_in_kwargs` (source lines 135-136):
true iff the filter's search string is non-empty after stripping
surrounding whitespace. -/
def search_string_in_kwargs (kwargs : ProductsKwargs) : Bool :=
  decide
    (strip ((kwargs.filter.getD { search := none, is_published := none
      }).search.getD "") ≠ "")

/-- Translation of `sort_field_from_kwargs` (source lines 139-140):
the requested sort-field list, with an absent or falsy (empty) field
collapsed to `none`. -/
def sort_field_from_kwargs (kwargs : ProductsKwargs) :
    Option (List String) :=
  match kwargs.sort_by with
  | none => none
  | some sb =>
    match sb.field with
    | none => none
    | some [] => none
    | some f => some f

/-- Translation of `ProductQueries.resolve_categories` (source lines
307-311).  The request context (requestor and site configuration) is
available to the resolver but not consulted: the domain resolver receives
only the `level` argument, and no permission or channel logic appears. -/
def ProductQueries.resolve_categories (_r : Requestor) (_cfg : SiteConfig)
    (resolve_categories_fn : Option Int → List Category)
    (level : Option Int) (kwargs : CategoriesKwargs) : Connection Category :=
  let qs := resolve_categories_fn level
  let qs := filter_categories_queryset qs kwargs
  create_connection_slice qs kwargs.first kwargs.after

/-- Translation of `ProductQueries.resolve_category` (source lines
313-321).  The two domain lookups (`resolve_category_by_id`,
`resolve_category_by_slug`) are external collaborators passed as
functions; the request context is available but not consulted.  The final
implicit `None` of the Python source is the last branch. -/
def ProductQueries.resolve_category (_r : Requestor) (_cfg : SiteConfig)
    (resolve_category_by_id : String → Option Category)
    (resolve_category_by_slug : String → Option Category)
    (id : Option GlobalId) (slug : Option String) :
    Except GqlError (Option Category) := do
  validate_one_of_args_is_in_query [("id", id.isSome), ("slug", slug.isSome)]
  match id with
  | some gid => do
    let p ← from_global_id_or_error gid "Category"
    pure (resolve_category_by_id p.2)
  | none =>
    match slug with
    | some s => pure (resolve_category_by_slug s)
    | none => pure none

/-- Translation of `ProductQueries.resolve_collection` (source lines
323-347): validate the id/slug pair, resolve the channel (defaulting for
an unprivileged requestor without an explicit channel), decode the global
id on the id path, delegate, and wrap a found collection in a
`ChannelContext` with the resolved channel slug. -/
def ProductQueries.resolve_collection (r : Requestor) (cfg : SiteConfig)
    (resolve_collection_by_id :
      String → Option String → Requestor → Option Collection)
    (resolve_collection_by_slug :
      Option String → Option String → Requestor → Option Collection)
    (id : Option GlobalId) (slug : Option String) (channel : Option String) :
    Except GqlError (Option (ChannelContext Collection)) := do
  validate_one_of_args_is_in_query [("id", id.isSome), ("slug", slug.isSome)]
  let has_required_permissions :=
    has_one_of_permissions r ALL_PRODUCTS_PERMISSIONS
  let channel ← if channel.isNone && !has_required_permissions then
      Except.map some (get_default_channel_slug_or_graphql_error cfg)
    else pure channel
  let collection ← match id with
    | some gid => do
      let p ← from_global_id_or_error gid "Collection"
      pure (resolve_collection_by_id p.2 channel r)
    | none => pure (resolve_collection_by_slug slug channel r)
  pure (collection.map (fun c => ChannelContext.mk c channel))

/-- Translation of `ProductQueries.resolve_collections` (source lines
349-360): resolve the channel, delegate for the queryset, record the
resolved channel in the kwargs, filter and slice. -/
def ProductQueries.resolve_collections (r : Requestor) (cfg : SiteConfig)
    (resolve_collections_fn : Option String → List Collection)
    (channel : Option String) (kwargs : CollectionsKwargs) :
    Except GqlError (Connection Collection) := do
  let has_required_permissions :=
    has_one_of_permissions r ALL_PRODUCTS_PERMISSIONS
  let channel ← if channel.isNone && !has_required_permissions then
      Except.map some (get_default_channel_slug_or_graphql_error cfg)
    else pure channel
  let qs := resolve_collections_fn channel
  let kwargs := { kwargs with channel := channel }
  let qs := filter_collections_queryset qs kwargs
  pure (create_connection_slice qs kwargs.first kwargs.after)

/-- Translation of `ProductQueries.resolve_digital_content` (source lines
362-365): decode the required global id against `DigitalContent` and
return the domain lookup's result directly.  The request context is
available but not consulted. -/
def ProductQueries.resolve_digital_content (_r : Requestor)
    (_cfg : SiteConfig)
    (resolve_digital_content_by_id : String → Option DigitalContent)
    (id : GlobalId) : Except GqlError (Option DigitalContent) := do
  let p ← from_global_id_or_error id "DigitalContent"
  pure (resolve_digital_content_by_id p.2)

/-- Translation of `ProductQueries.resolve_product` (source lines
374-406): validate the id/slug/external-reference triple, resolve the
channel, delegate (the global id is passed through undecoded at this
layer), and wrap a found product in a `ChannelContext` with the resolved
channel slug. -/
def ProductQueries.resolve_product (r : Requestor) (cfg : SiteConfig)
    (resolve_product_fn : Option GlobalId → Option String → Option String →
      Option String → Requestor → Option Product)
    (id : Option GlobalId) (slug : Option String)
    (external_reference : Option String) (channel : Option String) :
    Except GqlError (Option (ChannelContext Product)) := do
  validate_one_of_args_is_in_query
    [("id", id.isSome), ("slug", slug.isSome),
     ("external_reference", external_reference.isSome)]
  let has_required_permissions :=
    has_one_of_permissions r ALL_PRODUCTS_PERMISSIONS
  let channel ← if channel.isNone && !has_required_permissions then
      Except.map some (get_default_channel_slug_or_graphql_error cfg)
    else pure channel
  let product := resolve_product_fn id slug external_reference channel r
  pure (product.map (fun p => ChannelContext.mk p channel))

/-- Translation of `ProductQueries.resolve_products` (source lines
408-434): reject a relevance-rank sort without a search string, inject the
default descending relevance-rank sort (field list `["search_rank", "id"]`,
direction `"-"`) when a search string is present and no sort was requested,
resolve the channel, delegate for the queryset, record the resolved
channel in the kwargs, filter/sort and slice. -/
def ProductQueries.resolve_products (r : Requestor) (cfg : SiteConfig)
    (resolve_products_fn : Requestor → Option String → List Product)
    (channel : Option String) (kwargs : ProductsKwargs) :
    Except GqlError (Connection Product) := do
  if sort_field_from_kwargs kwargs = some ProductOrderField.RANK then
    if search_string_in_kwargs kwargs = false then
      throw (GqlError.graphQLError
        "Sorting by RANK is available only when using a search filter.")
  let kwargs :=
    if search_string_in_kwargs kwargs
        && (sort_field_from_kwargs kwargs).isNone then
      { kwargs with sort_by := some ⟨"-", some ["search_rank", "id"]⟩ }
    else kwargs
  let has_required_permissions :=
    has_one_of_permissions r ALL_PRODUCTS_PERMISSIONS
  let channel ← if channel.isNone && !has_required_permissions then
      Except.map some (get_default_channel_slug_or_graphql_error cfg)
    else pure channel
  let qs := resolve_products_fn r channel
  let kwargs := { kwargs with channel := channel }
  let qs := filter_connection_queryset qs kwargs
  pure (create_connection_slice qs kwargs.first kwargs.after)

/-- Translation of `ProductQueries.resolve_product_type` (source lines
436-439): decode the required global id against `ProductType` and return
the domain lookup's result directly. -/
def ProductQueries.resolve_product_type (_r : Requestor) (_cfg : SiteConfig)
    (resolve_product_type_by_id : String → Option ProductType)
    (id : GlobalId) : Except GqlError (Option ProductType) := do
  let p ← from_global_id_or_error id "ProductType"
  pure (resolve_product_type_by_id p.2)

/-- Translation of `ProductQueries.resolve_product_variant` (source lines
447-479): validate the id/sku/external-reference triple, resolve the
channel, delegate (passing the privileged-access flag through), and wrap a
found variant in a `ChannelContext` with the resolved channel slug. -/
def ProductQueries.resolve_product_variant (r : Requestor) (cfg : SiteConfig)
    (resolve_variant_fn : Option GlobalId → Option String → Option String →
      Option String → Requestor → Bool → Option ProductVariant)
    (id : Option GlobalId) (sku : Option String)
    (external_reference : Option String) (channel : Option String) :
    Except GqlError (Option (ChannelContext ProductVariant)) := do
  validate_one_of_args_is_in_query
    [("id", id.isSome), ("sku", sku.isSome),
     ("external_reference", external_reference.isSome)]
  let has_required_permissions :=
    has_one_of_permissions r ALL_PRODUCTS_PERMISSIONS
  let channel ← if channel.isNone && !has_required_permissions then
      Except.map some (get_default_channel_slug_or_graphql_error cfg)
    else pure channel
  let variant :=
    resolve_variant_fn id sku external_reference channel r
      has_required_permissions
  pure (variant.map (fun v => ChannelContext.mk v channel))

/-- Translation of `ProductQueries.resolve_product_variants` (source lines
481-502): resolve the channel, delegate for the channel-wrapped queryset,
record the queryset's channel slug in the kwargs, filter and slice. -/
def ProductQueries.resolve_product_variants (r : Requestor)
    (cfg : SiteConfig)
    (resolve_product_variants_fn : Option (List GlobalId) → Option String →
      Bool → Requestor → ChannelQsContext ProductVariant)
    (ids : Option (List GlobalId)) (channel : Option String)
    (kwargs : VariantsKwargs) :
    Except GqlError (Connection ProductVariant) := do
  let has_required_permissions :=
    has_one_of_permissions r ALL_PRODUCTS_PERMISSIONS
  let channel ← if channel.isNone && !has_required_permissions then
      Except.map some (get_default_channel_slug_or_graphql_error cfg)
    else pure channel
  let qs := resolve_product_variants_fn ids channel has_required_permissions r
  let kwargs := { kwargs with channel := qs.channel_slug }
  let qs2 := filter_variants_queryset qs.qs kwargs
  pure (create_connection_slice qs2 kwargs.first kwargs.after)

/-- The channel-resolution contract as worded in the specification
(section 4.2): an explicit channel is returned unchanged; otherwise a
requestor holding at least one full-catalog permission gets no channel
restriction (`none`); otherwise the configured default channel slug,
failing with `NoDefaultChannel` when none is configured.  This definition
follows the specification's words; the theorems compare the source-derived
resolvers against it. -/
def resolve_channel_spec (r : Requestor) (explicit_channel : Option String)
    (cfg : SiteConfig) : Except GqlError (Option String) :=
  match explicit_channel with
  | some c => .ok (some c)
  | none =>
    if has_one_of_permissions r ALL_PRODUCTS_PERMISSIONS then .ok none
    else
      match cfg.default_channel_slug with
      | some slug => .ok (some slug)
      | none => .error .noDefaultChannel

/-- The `collection` lookup as composed by the specification (sections 4.1
to 4.3): validate the exclusive arguments, resolve the channel by the
section-4.2 rule, decode the global id on the id path, delegate, and wrap a
found entity in a `ChannelContext` carrying the resolved channel slug. -/
def resolve_collection_spec (r : Requestor) (cfg : SiteConfig)
    (byId : String → Option String → Requestor → Option Collection)
    (bySlug : Option String → Option String → Requestor → Option Collection)
    (id : Option GlobalId) (slug : Option String)
    (channel : Option String) :
    Except GqlError (Option (ChannelContext Collection)) := do
  validate_one_of_args_is_in_query [("id", id.isSome), ("slug", slug.isSome)]
  let channel ← resolve_channel_spec r channel cfg
  let collection ← match id with
    | some gid => do
      let p ← from_global_id_or_error gid "Collection"
      pure (byId p.2 channel r)
    | none => pure (bySlug slug channel r)
  pure (collection.map (fun c => ChannelContext.mk c channel))

/-- The `collections` list query as composed by the specification
(sections 4.2 and 4.4): resolve the channel, delegate for the collection,
filter, and slice. -/
def resolve_collections_spec (r : Requestor) (cfg : SiteConfig)
    (fn : Option String → List Collection)
    (channel : Option String) (kwargs : CollectionsKwargs) :
    Except GqlError (Connection Collection) := do
  let channel ← resolve_channel_spec r channel cfg
  let kwargs := { kwargs with channel := channel }
  pure (create_connection_slice
    (filter_collections_queryset (fn channel) kwargs)
    kwargs.first kwargs.after)

/-- The `product` lookup as composed by the specification (sections 4.1 to
4.3): validate the exclusive arguments, resolve the channel, delegate, and
wrap a found entity in a `ChannelContext` carrying the resolved channel
slug. -/
def resolve_product_spec (r : Requestor) (cfg : SiteConfig)
    (fn : Option GlobalId → Option String → Option String → Option String →
      Requestor → Option Product)
    (id : Option GlobalId) (slug : Option String)
    (external_reference : Option String) (channel : Option String) :
    Except GqlError (Option (ChannelContext Product)) := do
  validate_one_of_args_is_in_query
    [("id", id.isSome), ("slug", slug.isSome),
     ("external_reference", external_reference.isSome)]
  let channel ← resolve_channel_spec r channel cfg
  pure ((fn id slug external_reference channel r).map
    (fun p => ChannelContext.mk p channel))

/-- The `products` list query as composed by the specification (sections
4.2 and 4.4, including the rank-sort special rules): reject a rank sort
without a search string, inject the default rank sort when a search string
is present without an explicit sort, resolve the channel, delegate, filter
and sort, and slice. -/
def resolve_products_spec (r : Requestor) (cfg : SiteConfig)
    (fn : Requestor → Option String → List Product)
    (channel : Option String) (kwargs : ProductsKwargs) :
    Except GqlError (Connection Product) := do
  if sort_field_from_kwargs kwargs = some ProductOrderField.RANK then
    if search_string_in_kwargs kwargs = false then
      throw (GqlError.graphQLError
        "Sorting by RANK is available only when using a search filter.")
  let kwargs :=
    if search_string_in_kwargs kwargs
        && (sort_field_from_kwargs kwargs).isNone then
      { kwargs with sort_by := some ⟨"-", some ["search_rank", "id"]⟩ }
    else kwargs
  let channel ← resolve_channel_spec r channel cfg
  let kwargs := { kwargs with channel := channel }
  pure (create_connection_slice
    (filter_connection_queryset (fn r channel) kwargs)
    kwargs.first kwargs.after)

/-- The `productVariant` lookup as composed by the specification (sections
4.1 to 4.3). -/
def resolve_product_variant_spec (r : Requestor) (cfg : SiteConfig)
    (fn : Option GlobalId → Option String → Option String → Option String →
      Requestor → Bool → Option ProductVariant)
    (id : Option GlobalId) (sku : Option String)
    (external_reference : Option String) (channel : Option String) :
    Except GqlError (Option (ChannelContext ProductVariant)) := do
  validate_one_of_args_is_in_query
    [("id", id.isSome), ("sku", sku.isSome),
     ("external_reference", external_reference.isSome)]
  let channel ← resolve_channel_spec r channel cfg
  pure ((fn id sku external_reference channel r
      (has_one_of_permissions r ALL_PRODUCTS_PERMISSIONS)).map
    (fun v => ChannelContext.mk v channel))

/-- The `productVariants` list query as composed by the specification
(sections 4.2 and 4.4). -/
def resolve_product_variants_spec (r : Requestor) (cfg : SiteConfig)
    (fn : Option (List GlobalId) → Option String → Bool → Requestor →
      ChannelQsContext ProductVariant)
    (ids : Option (List GlobalId)) (channel : Option String)
    (kwargs : VariantsKwargs) :
    Except GqlError (Connection ProductVariant) := do
  let channel ← resolve_channel_spec r channel cfg
  let qs := fn ids channel
    (has_one_of_permissions r ALL_PRODUCTS_PERMISSIONS) r
  let kwargs := { kwargs with channel := qs.channel_slug }
  pure (create_connection_slice
    (filter_variants_queryset qs.qs kwargs)
    kwargs.first kwargs.after)

theorem except_ok_bind {ε α β : Type} (a : α) (f : α → Except ε β) :
    (Except.ok a : Except ε α) >>= f = f a := rfl

theorem except_error_bind {ε α β : Type} (e : ε) (f : α → Except ε β) :
    (Except.error e : Except ε α) >>= f = Except.error e := rfl

/-- The inline channel-defaulting step shared by all channel-scoped
resolvers coincides with the specification's channel-resolution
contract. -/
theorem channel_step_eq (r : Requestor) (channel : Option String)
    (cfg : SiteConfig) :
    (if channel.isNone
        && !(has_one_of_permissions r ALL_PRODUCTS_PERMISSIONS) then
       Except.map some (get_default_channel_slug_or_graphql_error cfg)
     else pure channel) = resolve_channel_spec r channel cfg := by
  cases channel with
  | some c => simp [resolve_channel_spec, pure, Except.pure]
  | none =>
    cases h : has_one_of_permissions r ALL_PRODUCTS_PERMISSIONS with
    | true => simp [resolve_channel_spec, h, pure, Except.pure]
    | false =>
      cases hc : cfg.default_channel_slug with
      | some s =>
        simp [resolve_channel_spec, get_default_channel_slug_or_graphql_error,
          h, hc, Except.map]
      | none =>
        simp [resolve_channel_spec, get_default_channel_slug_or_graphql_error,
          h, hc, Except.map]

theorem resolve_collection_eq_spec (r : Requestor) (cfg : SiteConfig)
    (byId : String → Option String → Requestor → Option Collection)
    (bySlug : Option String → Option String → Requestor → Option Collection)
    (id : Option GlobalId) (slug : Option String)
    (channel : Option String) :
    ProductQueries.resolve_collection r cfg byId bySlug id slug channel =
      resolve_collection_spec r cfg byId bySlug id slug channel := by
  cases channel with
  | some c =>
    simp [ProductQueries.resolve_collection, resolve_collection_spec,
      resolve_channel_spec, except_ok_bind, pure, Except.pure]
  | none =>
    cases h : has_one_of_permissions r ALL_PRODUCTS_PERMISSIONS with
    | true =>
      simp [ProductQueries.resolve_collection, resolve_collection_spec,
        resolve_channel_spec, h, except_ok_bind, pure, Except.pure]
    | false =>
      cases hc : cfg.default_channel_slug with
      | some s =>
        simp [ProductQueries.resolve_collection, resolve_collection_spec,
          resolve_channel_spec,
          get_default_channel_slug_or_graphql_error, h, hc, Except.map,
          except_ok_bind, except_error_bind, pure, Except.pure]
      | none =>
        simp [ProductQueries.resolve_collection, resolve_collection_spec,
          resolve_channel_spec,
          get_default_channel_slug_or_graphql_error, h, hc, Except.map,
          except_ok_bind, except_error_bind, pure, Except.pure]

theorem resolve_collections_eq_spec (r : Requestor) (cfg : SiteConfig)
    (fn : Option String → List Collection)
    (channel : Option String) (kwargs : CollectionsKwargs) :
    ProductQueries.resolve_collections r cfg fn channel kwargs =
      resolve_collections_spec r cfg fn channel kwargs := by
  cases channel with
  | some c =>
    simp [ProductQueries.resolve_collections, resolve_collections_spec,
      resolve_channel_spec, except_ok_bind, pure, Except.pure]
  | none =>
    cases h : has_one_of_permissions r ALL_PRODUCTS_PERMISSIONS with
    | true =>
      simp [ProductQueries.resolve_collections, resolve_collections_spec,
        resolve_channel_spec, h, except_ok_bind, pure, Except.pure]
    | false =>
      cases hc : cfg.default_channel_slug with
      | some s =>
        simp [ProductQueries.resolve_collections, resolve_collections_spec,
          resolve_channel_spec,
          get_default_channel_slug_or_graphql_error, h, hc, Except.map,
          except_ok_bind, except_error_bind, pure, Except.pure]
      | none =>
        simp [ProductQueries.resolve_collections, resolve_collections_spec,
          resolve_channel_spec,
          get_default_channel_slug_or_graphql_error, h, hc, Except.map,
          except_ok_bind, except_error_bind, pure, Except.pure]

theorem resolve_product_eq_spec (r : Requestor) (cfg : SiteConfig)
    (fn : Option GlobalId → Option String → Option String → Option String →
      Requestor → Option Product)
    (id : Option GlobalId) (slug : Option String)
    (external_reference : Option String) (channel : Option String) :
    ProductQueries.resolve_product r cfg fn id slug external_reference
        channel =
      resolve_product_spec r cfg fn id slug external_reference channel := by
  cases channel with
  | some c =>
    simp [ProductQueries.resolve_product, resolve_product_spec,
      resolve_channel_spec, except_ok_bind, pure, Except.pure]
  | none =>
    cases h : has_one_of_permissions r ALL_PRODUCTS_PERMISSIONS with
    | true =>
      simp [ProductQueries.resolve_product, resolve_product_spec,
        resolve_channel_spec, h, except_ok_bind, pure, Except.pure]
    | false =>
      cases hc : cfg.default_channel_slug with
      | some s =>
        simp [ProductQueries.resolve_product, resolve_product_spec,
          resolve_channel_spec,
          get_default_channel_slug_or_graphql_error, h, hc, Except.map,
          except_ok_bind, except_error_bind, pure, Except.pure]
      | none =>
        simp [ProductQueries.resolve_product, resolve_product_spec,
          resolve_channel_spec,
          get_default_channel_slug_or_graphql_error, h, hc, Except.map,
          except_ok_bind, except_error_bind, pure, Except.pure]

theorem resolve_products_eq_spec (r : Requestor) (cfg : SiteConfig)
    (fn : Requestor → Option String → List Product)
    (channel : Option String) (kwargs : ProductsKwargs) :
    ProductQueries.resolve_products r cfg fn channel kwargs =
      resolve_products_spec r cfg fn channel kwargs := by
  cases channel with
  | some c =>
    simp [ProductQueries.resolve_products, resolve_products_spec,
      resolve_channel_spec, except_ok_bind, pure, Except.pure]
  | none =>
    cases h : has_one_of_permissions r ALL_PRODUCTS_PERMISSIONS with
    | true =>
      simp [ProductQueries.resolve_products, resolve_products_spec,
        resolve_channel_spec, h, except_ok_bind, pure, Except.pure]
    | false =>
      cases hc : cfg.default_channel_slug with
      | some s =>
        simp [ProductQueries.resolve_products, resolve_products_spec,
          resolve_channel_spec,
          get_default_channel_slug_or_graphql_error, h, hc, Except.map,
          except_ok_bind, except_error_bind, pure, Except.pure]
      | none =>
        simp [ProductQueries.resolve_products, resolve_products_spec,
          resolve_channel_spec,
          get_default_channel_slug_or_graphql_error, h, hc, Except.map,
          except_ok_bind, except_error_bind, pure, Except.pure]

theorem resolve_product_variant_eq_spec (r : Requestor) (cfg : SiteConfig)
    (fn : Option GlobalId → Option String → Option String → Option String →
      Requestor → Bool → Option ProductVariant)
    (id : Option GlobalId) (sku : Option String)
    (external_reference : Option String) (channel : Option String) :
    ProductQueries.resolve_product_variant r cfg fn id sku
        external_reference channel =
      resolve_product_variant_spec r cfg fn id sku external_reference
        channel := by
  cases channel with
  | some c =>
    simp [ProductQueries.resolve_product_variant,
      resolve_product_variant_spec,
      resolve_channel_spec, except_ok_bind, pure, Except.pure]
  | none =>
    cases h : has_one_of_permissions r ALL_PRODUCTS_PERMISSIONS with
    | true =>
      simp [ProductQueries.resolve_product_variant,
        resolve_product_variant_spec,
        resolve_channel_spec, h, except_ok_bind, pure, Except.pure]
    | false =>
      cases hc : cfg.default_channel_slug with
      | some s =>
        simp [ProductQueries.resolve_product_variant,
          resolve_product_variant_spec, resolve_channel_spec,
          get_default_channel_slug_or_graphql_error, h, hc, Except.map,
          except_ok_bind, except_error_bind, pure, Except.pure]
      | none =>
        simp [ProductQueries.resolve_product_variant,
          resolve_product_variant_spec, resolve_channel_spec,
          get_default_channel_slug_or_graphql_error, h, hc, Except.map,
          except_ok_bind, except_error_bind, pure, Except.pure]

theorem resolve_product_variants_eq_spec (r : Requestor) (cfg : SiteConfig)
    (fn : Option (List GlobalId) → Option String → Bool → Requestor →
      ChannelQsContext ProductVariant)
    (ids : Option (List GlobalId)) (channel : Option String)
    (kwargs : VariantsKwargs) :
    ProductQueries.resolve_product_variants r cfg fn ids channel kwargs =
      resolve_product_variants_spec r cfg fn ids channel kwargs := by
  cases channel with
  | some c =>
    simp [ProductQueries.resolve_product_variants,
      resolve_product_variants_spec,
      resolve_channel_spec, except_ok_bind, pure, Except.pure]
  | none =>
    cases h : has_one_of_permissions r ALL_PRODUCTS_PERMISSIONS with
    | true =>
      simp [ProductQueries.resolve_product_variants,
        resolve_product_variants_spec,
        resolve_channel_spec, h, except_ok_bind, pure, Except.pure]
    | false =>
      cases hc : cfg.default_channel_slug with
      | some s =>
        simp [ProductQueries.resolve_product_variants,
          resolve_product_variants_spec, resolve_channel_spec,
          get_default_channel_slug_or_graphql_error, h, hc, Except.map,
          except_ok_bind, except_error_bind, pure, Except.pure]
      | none =>
        simp [ProductQueries.resolve_product_variants,
          resolve_product_variants_spec, resolve_channel_spec,
          get_default_channel_slug_or_graphql_error, h, hc, Except.map,
          except_ok_bind, except_error_bind, pure, Except.pure]

/-- C1: Channel resolution for every channel-scoped query (`collection`,
`collections`, `product`, `products`, `productVariant`, `productVariants`):
each resolver equals its pipeline factored through the specification's
channel rule `resolve_channel_spec` — an explicit channel slug is used
unchanged; otherwise a requestor holding at least one permission of the
fixed full-catalog set gets a null (unrestricted) channel; otherwise the
configured default channel slug is used, and the query fails with
`NoDefaultChannel` when no default is configured. -/
theorem channel_resolution_for_channel_scoped_queries :
    (∀ (r : Requestor) (cfg : SiteConfig)
        (byId : String → Option String → Requestor → Option Collection)
        (bySlug : Option String → Option String → Requestor →
          Option Collection)
        (id : Option GlobalId) (slug channel : Option String),
      ProductQueries.resolve_collection r cfg byId bySlug id slug channel =
        resolve_collection_spec r cfg byId bySlug id slug channel)
    ∧ (∀ (r : Requestor) (cfg : SiteConfig)
        (fn : Option String → List Collection)
        (channel : Option String) (kwargs : CollectionsKwargs),
      ProductQueries.resolve_collections r cfg fn channel kwargs =
        resolve_collections_spec r cfg fn channel kwargs)
    ∧ (∀ (r : Requestor) (cfg : SiteConfig)
        (fn : Option GlobalId → Option String → Option String →
          Option String → Requestor → Option Product)
        (id : Option GlobalId) (slug external_reference channel :
          Option String),
      ProductQueries.resolve_product r cfg fn id slug external_reference
          channel =
        resolve_product_spec r cfg fn id slug external_reference channel)
    ∧ (∀ (r : Requestor) (cfg : SiteConfig)
        (fn : Requestor → Option String → List Product)
        (channel : Option String) (kwargs : ProductsKwargs),
      ProductQueries.resolve_products r cfg fn channel kwargs =
        resolve_products_spec r cfg fn channel kwargs)
    ∧ (∀ (r : Requestor) (cfg : SiteConfig)
        (fn : Option GlobalId → Option String → Option String →
          Option String → Requestor → Bool → Option ProductVariant)
        (id : Option GlobalId) (sku external_reference channel :
          Option String),
      ProductQueries.resolve_product_variant r cfg fn id sku
          external_reference channel =
        resolve_product_variant_spec r cfg fn id sku external_reference
          channel)
    ∧ (∀ (r : Requestor) (cfg : SiteConfig)
        (fn : Option (List GlobalId) → Option String → Bool → Requestor →
          ChannelQsContext ProductVariant)
        (ids : Option (List GlobalId)) (channel : Option String)
        (kwargs : VariantsKwargs),
      ProductQueries.resolve_product_variants r cfg fn ids channel kwargs =
        resolve_product_variants_spec r cfg fn ids channel kwargs) :=
  ⟨resolve_collection_eq_spec, resolve_collections_eq_spec,
    resolve_product_eq_spec, resolve_products_eq_spec,
    resolve_product_variant_eq_spec, resolve_product_variants_eq_spec⟩

theorem except_throw {ε α : Type} (e : ε) :
    (throw e : Except ε α) = Except.error e := rfl

/-- Requesting a rank sort without a search string makes `resolve_products`
fail with the validation error before consulting any collaborator. -/
theorem resolve_products_rank_error (r : Requestor) (cfg : SiteConfig)
    (fn : Requestor → Option String → List Product)
    (channel : Option String) (kwargs : ProductsKwargs)
    (hsort : sort_field_from_kwargs kwargs = some ProductOrderField.RANK)
    (hsearch : search_string_in_kwargs kwargs = false) :
    ProductQueries.resolve_products r cfg fn channel kwargs =
      .error (.graphQLError
        "Sorting by RANK is available only when using a search filter.") := by
  rw [resolve_products_eq_spec]
  unfold resolve_products_spec
  rw [hsort, hsearch]
  simp [except_error_bind, except_throw]

/-- Channel resolution either yields a channel option or fails with
`NoDefaultChannel`; no other error can arise from it. -/
theorem resolve_channel_spec_cases (r : Requestor) (c : Option String)
    (cfg : SiteConfig) :
    (∃ ch, resolve_channel_spec r c cfg = .ok ch) ∨
      resolve_channel_spec r c cfg = .error .noDefaultChannel := by
  rcases c with _ | s
  · by_cases h : has_one_of_permissions r ALL_PRODUCTS_PERMISSIONS
    · exact Or.inl ⟨none, by simp [resolve_channel_spec, h]⟩
    · rcases hc : cfg.default_channel_slug with _ | d
      · exact Or.inr (by simp [resolve_channel_spec, h, hc])
      · exact Or.inl ⟨some d, by simp [resolve_channel_spec, h, hc]⟩
  · exact Or.inl ⟨some s, rfl⟩

/-- C3: For every products list query whose requested sort field is the
relevance rank and whose filter contains no (non-blank) search predicate,
resolution fails with the validation error, before any delegation to the
domain resolver (the outcome is the same for every domain resolver,
requestor and configuration) and regardless of any other filters present. -/
theorem rank_sort_without_search_fails (r : Requestor) (cfg : SiteConfig)
    (fn : Requestor → Option String → List Product)
    (channel : Option String) (kwargs : ProductsKwargs)
    (hsort : sort_field_from_kwargs kwargs = some ProductOrderField.RANK)
    (hsearch : search_string_in_kwargs kwargs = false) :
    ProductQueries.resolve_products r cfg fn channel kwargs =
      .error (.graphQLError
        "Sorting by RANK is available only when using a search filter.") :=
  resolve_products_rank_error r cfg fn channel kwargs hsort hsearch

/-- Witness for C3 at a concrete request: rank sort, no search string, but
another filter (`is_published`) present. -/
theorem rank_sort_without_search_fails_witness :
    sort_field_from_kwargs
        ⟨some ⟨none, some true⟩, some ⟨"-", some ["search_rank", "id"]⟩,
          none, some 5, none⟩
      = some ProductOrderField.RANK
    ∧ search_string_in_kwargs
        ⟨some ⟨none, some true⟩, some ⟨"-", some ["search_rank", "id"]⟩,
          none, some 5, none⟩
      = false
    ∧ ProductQueries.resolve_products ⟨[]⟩ ⟨some "default-channel"⟩
        (fun _ _ => []) none
        ⟨some ⟨none, some true⟩, some ⟨"-", some ["search_rank", "id"]⟩,
          none, some 5, none⟩
      = .error (.graphQLError
        "Sorting by RANK is available only when using a search filter.") :=
  ⟨by decide, by decide,
    rank_sort_without_search_fails ⟨[]⟩ ⟨some "default-channel"⟩
      (fun _ _ => []) none _ (by decide) (by decide)⟩

/-- C2 counterexample: the `category` lookup with exactly one identifying
argument supplied (an id) neither succeeds nor returns null when the id
encodes another entity type — it fails with `InvalidGlobalId` — so
"supplying exactly one either succeeds or returns null" is false as
stated. -/
theorem single_lookup_exactly_one_can_still_fail :
    validate_one_of_args_is_in_query
        [("id", (some (GlobalId.mk "Collection" "42")).isSome),
         ("slug", (none : Option String).isSome)] = .ok ()
    ∧ ProductQueries.resolve_category ⟨[]⟩ ⟨some "default-channel"⟩
        (fun _ => some ⟨1, "shoes"⟩) (fun _ => some ⟨1, "shoes"⟩)
        (some (GlobalId.mk "Collection" "42")) none
      = .error (.invalidGlobalId "Collection" "Category") :=
  ⟨rfl, rfl⟩

/-- C2 (amended): for every single-entity lookup (category, collection,
product, product variant), supplying zero of the mutually exclusive
identifying arguments, or more than one of them, fails with an
`InvalidArguments` error naming the offending fields; supplying exactly
one never produces `InvalidArguments` — the lookup then succeeds, returns
null, or fails with a later error of a different kind (such as
`InvalidGlobalId` or `NoDefaultChannel`). -/
theorem single_lookup_argument_validation :
    (∀ (r : Requestor) (cfg : SiteConfig)
        (byId : String → Option Category)
        (bySlug : String → Option Category)
        (id : Option GlobalId) (slug : Option String),
      (([("id", id.isSome), ("slug", slug.isSome)].filter
            (fun a => a.2)).length ≠ 1 →
        ProductQueries.resolve_category r cfg byId bySlug id slug =
          .error (.invalidArguments ["id", "slug"]))
      ∧ (([("id", id.isSome), ("slug", slug.isSome)].filter
            (fun a => a.2)).length = 1 →
          ∀ fields,
            ProductQueries.resolve_category r cfg byId bySlug id slug ≠
              .error (.invalidArguments fields)))
    ∧ (∀ (r : Requestor) (cfg : SiteConfig)
        (byId : String → Option String → Requestor → Option Collection)
        (bySlug : Option String → Option String → Requestor →
          Option Collection)
        (id : Option GlobalId) (slug channel : Option String),
      (([("id", id.isSome), ("slug", slug.isSome)].filter
            (fun a => a.2)).length ≠ 1 →
        ProductQueries.resolve_collection r cfg byId bySlug id slug
            channel =
          .error (.invalidArguments ["id", "slug"]))
      ∧ (([("id", id.isSome), ("slug", slug.isSome)].filter
            (fun a => a.2)).length = 1 →
          ∀ fields,
            ProductQueries.resolve_collection r cfg byId bySlug id slug
                channel ≠
              .error (.invalidArguments fields)))
    ∧ (∀ (r : Requestor) (cfg : SiteConfig)
        (fn : Option GlobalId → Option String → Option String →
          Option String → Requestor → Option Product)
        (id : Option GlobalId) (slug external_reference channel :
          Option String),
      (([("id", id.isSome), ("slug", slug.isSome),
            ("external_reference", external_reference.isSome)].filter
            (fun a => a.2)).length ≠ 1 →
        ProductQueries.resolve_product r cfg fn id slug
            external_reference channel =
          .error (.invalidArguments ["id", "slug", "external_reference"]))
      ∧ (([("id", id.isSome), ("slug", slug.isSome),
            ("external_reference", external_reference.isSome)].filter
            (fun a => a.2)).length = 1 →
          ∀ fields,
            ProductQueries.resolve_product r cfg fn id slug
                external_reference channel ≠
              .error (.invalidArguments fields)))
    ∧ (∀ (r : Requestor) (cfg : SiteConfig)
        (fn : Option GlobalId → Option String → Option String →
          Option String → Requestor → Bool → Option ProductVariant)
        (id : Option GlobalId) (sku external_reference channel :
          Option String),
      (([("id", id.isSome), ("sku", sku.isSome),
            ("external_reference", external_reference.isSome)].filter
            (fun a => a.2)).length ≠ 1 →
        ProductQueries.resolve_product_variant r cfg fn id sku
            external_reference channel =
          .error (.invalidArguments ["id", "sku", "external_reference"]))
      ∧ (([("id", id.isSome), ("sku", sku.isSome),
            ("external_reference", external_reference.isSome)].filter
            (fun a => a.2)).length = 1 →
          ∀ fields,
            ProductQueries.resolve_product_variant r cfg fn id sku
                external_reference channel ≠
              .error (.invalidArguments fields))) := by
  refine ⟨?_, ?_, ?_, ?_⟩
  · intro r cfg byId bySlug id slug
    constructor
    · intro h
      simp [ProductQueries.resolve_category,
        validate_one_of_args_is_in_query, h, except_error_bind]
    · intro h fields hcon
      rcases id with _ | gid
      · rcases slug with _ | s
        · simp at h
        · simp [ProductQueries.resolve_category,
            validate_one_of_args_is_in_query, except_ok_bind,
            pure, Except.pure] at hcon
      · rcases slug with _ | s
        · by_cases hty : gid.ty = "Category"
          · simp [ProductQueries.resolve_category,
              validate_one_of_args_is_in_query, from_global_id_or_error,
              hty, except_ok_bind, except_error_bind, pure,
              Except.pure] at hcon
          · simp [ProductQueries.resolve_category,
              validate_one_of_args_is_in_query, from_global_id_or_error,
              hty, except_ok_bind, except_error_bind, pure,
              Except.pure] at hcon
        · simp at h
  · intro r cfg byId bySlug id slug channel
    constructor
    · intro h
      simp [ProductQueries.resolve_collection,
        validate_one_of_args_is_in_query, h, except_error_bind]
    · intro h fields hcon
      have hv : validate_one_of_args_is_in_query
          [("id", id.isSome), ("slug", slug.isSome)] = .ok () := by
        simp [validate_one_of_args_is_in_query, h]
      rw [resolve_collection_eq_spec] at hcon
      unfold resolve_collection_spec at hcon
      rw [hv] at hcon
      rcases resolve_channel_spec_cases r channel cfg with ⟨ch, hch⟩ | hch
      · rcases id with _ | gid
        · simp [hch, except_ok_bind, except_error_bind, pure,
            Except.pure] at hcon
        · by_cases hty : gid.ty = "Collection"
          · simp [hch, from_global_id_or_error, hty, except_ok_bind,
              except_error_bind, pure, Except.pure] at hcon
          · simp [hch, from_global_id_or_error, hty, except_ok_bind,
              except_error_bind, pure, Except.pure] at hcon
      · simp [hch, except_ok_bind, except_error_bind, pure,
          Except.pure] at hcon
  · intro r cfg fn id slug external_reference channel
    constructor
    · intro h
      simp [ProductQueries.resolve_product,
        validate_one_of_args_is_in_query, h, except_error_bind]
    · intro h fields hcon
      have hv : validate_one_of_args_is_in_query
          [("id", id.isSome), ("slug", slug.isSome),
           ("external_reference", external_reference.isSome)] = .ok () := by
        simp [validate_one_of_args_is_in_query, h]
      rw [resolve_product_eq_spec] at hcon
      unfold resolve_product_spec at hcon
      rw [hv] at hcon
      rcases resolve_channel_spec_cases r channel cfg with ⟨ch, hch⟩ | hch
      · simp [hch, except_ok_bind, except_error_bind, pure,
          Except.pure] at hcon
      · simp [hch, except_ok_bind, except_error_bind, pure,
          Except.pure] at hcon
  · intro r cfg fn id sku external_reference channel
    constructor
    · intro h
      simp [ProductQueries.resolve_product_variant,
        validate_one_of_args_is_in_query, h, except_error_bind]
    · intro h fields hcon
      have hv : validate_one_of_args_is_in_query
          [("id", id.isSome), ("sku", sku.isSome),
           ("external_reference", external_reference.isSome)] = .ok () := by
        simp [validate_one_of_args_is_in_query, h]
      rw [resolve_product_variant_eq_spec] at hcon
      unfold resolve_product_variant_spec at hcon
      rw [hv] at hcon
      rcases resolve_channel_spec_cases r channel cfg with ⟨ch, hch⟩ | hch
      · simp [hch, except_ok_bind, except_error_bind, pure,
          Except.pure] at hcon
      · simp [hch, except_ok_bind, except_error_bind, pure,
          Except.pure] at hcon

/-- Witness for the amended C2 at concrete requests: zero arguments yield
`InvalidArguments` naming both fields, and a slug-only lookup does not
produce `InvalidArguments`. -/
theorem single_lookup_argument_validation_witness :
    ProductQueries.resolve_category ⟨[]⟩ ⟨some "default-channel"⟩
        (fun _ => none) (fun _ => some ⟨1, "shoes"⟩) none none
      = .error (.invalidArguments ["id", "slug"])
    ∧ ProductQueries.resolve_category ⟨[]⟩ ⟨some "default-channel"⟩
        (fun _ => none) (fun _ => some ⟨1, "shoes"⟩) none (some "shoes")
      ≠ .error (.invalidArguments ["id", "slug"]) :=
  ⟨(single_lookup_argument_validation.1 ⟨[]⟩ ⟨some "default-channel"⟩
      (fun _ => none) (fun _ => some ⟨1, "shoes"⟩) none none).1
      (by decide),
   (single_lookup_argument_validation.1 ⟨[]⟩ ⟨some "default-channel"⟩
      (fun _ => none) (fun _ => some ⟨1, "shoes"⟩) none (some "shoes")).2
      (by decide) ["id", "slug"]⟩

/-- C5: For every single-entity lookup of a channel-scoped entity
(collection, product, product variant), once the arguments validate, the
channel resolves, and (on the id path) the global id decodes, the result is
`.ok`: a found entity is wrapped in a `ChannelContext` pairing it with the
resolved channel slug, and an absent entity yields null — never an
error. -/
theorem channel_scoped_lookup_channel_context :
    (∀ (r : Requestor) (cfg : SiteConfig)
        (byId : String → Option String → Requestor → Option Collection)
        (bySlug : Option String → Option String → Requestor →
          Option Collection)
        (id : Option GlobalId) (slug channel : Option String)
        (ch : Option String),
      validate_one_of_args_is_in_query
          [("id", id.isSome), ("slug", slug.isSome)] = .ok () →
      resolve_channel_spec r channel cfg = .ok ch →
      (∀ gid, id = some gid → gid.ty = "Collection") →
      ProductQueries.resolve_collection r cfg byId bySlug id slug channel =
        .ok ((match id with
              | some gid => byId gid.key ch r
              | none => bySlug slug ch r).map
          (fun c => ChannelContext.mk c ch)))
    ∧ (∀ (r : Requestor) (cfg : SiteConfig)
        (fn : Option GlobalId → Option String → Option String →
          Option String → Requestor → Option Product)
        (id : Option GlobalId) (slug external_reference channel :
          Option String) (ch : Option String),
      validate_one_of_args_is_in_query
          [("id", id.isSome), ("slug", slug.isSome),
           ("external_reference", external_reference.isSome)] = .ok () →
      resolve_channel_spec r channel cfg = .ok ch →
      ProductQueries.resolve_product r cfg fn id slug external_reference
          channel =
        .ok ((fn id slug external_reference ch r).map
          (fun p => ChannelContext.mk p ch)))
    ∧ (∀ (r : Requestor) (cfg : SiteConfig)
        (fn : Option GlobalId → Option String → Option String →
          Option String → Requestor → Bool → Option ProductVariant)
        (id : Option GlobalId) (sku external_reference channel :
          Option String) (ch : Option String),
      validate_one_of_args_is_in_query
          [("id", id.isSome), ("sku", sku.isSome),
           ("external_reference", external_reference.isSome)] = .ok () →
      resolve_channel_spec r channel cfg = .ok ch →
      ProductQueries.resolve_product_variant r cfg fn id sku
          external_reference channel =
        .ok ((fn id sku external_reference ch r
            (has_one_of_permissions r ALL_PRODUCTS_PERMISSIONS)).map
          (fun v => ChannelContext.mk v ch))) := by
  refine ⟨?_, ?_, ?_⟩
  · intro r cfg byId bySlug id slug channel ch hval hch htyp
    rw [resolve_collection_eq_spec]
    unfold resolve_collection_spec
    rw [hval, hch]
    rcases id with _ | gid
    · simp [except_ok_bind, pure, Except.pure]
    · have hty := htyp gid rfl
      simp [from_global_id_or_error, hty, except_ok_bind, pure,
        Except.pure]
  · intro r cfg fn id slug external_reference channel ch hval hch
    rw [resolve_product_eq_spec]
    unfold resolve_product_spec
    rw [hval, hch]
    simp [except_ok_bind, pure, Except.pure]
  · intro r cfg fn id sku external_reference channel ch hval hch
    rw [resolve_product_variant_eq_spec]
    unfold resolve_product_variant_spec
    rw [hval, hch]
    simp [except_ok_bind, pure, Except.pure]

/-- Witness for C5 at concrete requests: a collection found by id is
wrapped with the resolved default channel slug, a product that the domain
lookup does not find yields null, and a variant found by sku is wrapped. -/
theorem channel_scoped_lookup_channel_context_witness :
    ProductQueries.resolve_collection ⟨[]⟩ ⟨some "default-channel"⟩
        (fun _ _ _ => some ⟨7⟩) (fun _ _ _ => none)
        (some ⟨"Collection", "7"⟩) none none
      = .ok (some ⟨⟨7⟩, some "default-channel"⟩)
    ∧ ProductQueries.resolve_product ⟨[]⟩ ⟨some "default-channel"⟩
        (fun _ _ _ _ _ => none) none (some "chair-01") none none
      = .ok none
    ∧ ProductQueries.resolve_product_variant ⟨["MANAGE_PRODUCTS"]⟩ ⟨none⟩
        (fun _ _ _ _ _ _ => some ⟨3⟩) none (some "SKU-3") none none
      = .ok (some ⟨⟨3⟩, none⟩) :=
  ⟨channel_scoped_lookup_channel_context.1 ⟨[]⟩ ⟨some "default-channel"⟩
      (fun _ _ _ => some ⟨7⟩) (fun _ _ _ => none)
      (some ⟨"Collection", "7"⟩) none none (some "default-channel")
      rfl rfl (fun gid h => by cases h; rfl),
   channel_scoped_lookup_channel_context.2.1 ⟨[]⟩ ⟨some "default-channel"⟩
      (fun _ _ _ _ _ => none) none (some "chair-01") none none
      (some "default-channel") rfl rfl,
   channel_scoped_lookup_channel_context.2.2 ⟨["MANAGE_PRODUCTS"]⟩ ⟨none⟩
      (fun _ _ _ _ _ _ => some ⟨3⟩) none (some "SKU-3") none none none
      rfl rfl⟩

/-- C6: For the single-entity lookups of channel-agnostic entities
(category, digital content) the resolver ignores the request context
entirely (no permission check, no channel resolution) and returns the
domain lookup's entity-or-null directly, with no `ChannelContext`
wrapping (visible in the result type). -/
theorem channel_agnostic_lookup_direct :
    (∀ (r r' : Requestor) (cfg cfg' : SiteConfig)
        (byId : String → Option Category)
        (bySlug : String → Option Category)
        (id : Option GlobalId) (slug : Option String),
      ProductQueries.resolve_category r cfg byId bySlug id slug =
        ProductQueries.resolve_category r' cfg' byId bySlug id slug)
    ∧ (∀ (r : Requestor) (cfg : SiteConfig)
        (byId : String → Option Category)
        (bySlug : String → Option Category)
        (id : Option GlobalId) (slug : Option String),
      validate_one_of_args_is_in_query
          [("id", id.isSome), ("slug", slug.isSome)] = .ok () →
      (∀ gid, id = some gid → gid.ty = "Category") →
      ProductQueries.resolve_category r cfg byId bySlug id slug =
        .ok (match id with
             | some gid => byId gid.key
             | none =>
               match slug with
               | some s => bySlug s
               | none => none))
    ∧ (∀ (r r' : Requestor) (cfg cfg' : SiteConfig)
        (byId : String → Option DigitalContent) (gid : GlobalId),
      ProductQueries.resolve_digital_content r cfg byId gid =
        ProductQueries.resolve_digital_content r' cfg' byId gid)
    ∧ (∀ (r : Requestor) (cfg : SiteConfig)
        (byId : String → Option DigitalContent) (gid : GlobalId),
      gid.ty = "DigitalContent" →
      ProductQueries.resolve_digital_content r cfg byId gid =
        .ok (byId gid.key)) := by
  refine ⟨fun _ _ _ _ _ _ _ _ => rfl, ?_, fun _ _ _ _ _ _ => rfl, ?_⟩
  · intro r cfg byId bySlug id slug hval htyp
    unfold ProductQueries.resolve_category
    rw [hval]
    rcases id with _ | gid
    · rcases slug with _ | s
      · simp [except_ok_bind, pure, Except.pure]
      · simp [except_ok_bind, pure, Except.pure]
    · have hty := htyp gid rfl
      simp [from_global_id_or_error, hty, except_ok_bind, pure,
        Except.pure]
  · intro r cfg byId gid hty
    unfold ProductQueries.resolve_digital_content
    simp [from_global_id_or_error, hty, except_ok_bind, pure, Except.pure]

/-- Witness for C6 at concrete requests: a category looked up by slug is
returned directly, and a digital content looked up by a correctly-typed id
is returned directly. -/
theorem channel_agnostic_lookup_direct_witness :
    ProductQueries.resolve_category ⟨[]⟩ ⟨none⟩ (fun _ => none)
        (fun _ => some ⟨5, "chairs"⟩) none (some "chairs")
      = .ok (some ⟨5, "chairs"⟩)
    ∧ ProductQueries.resolve_digital_content ⟨[]⟩ ⟨none⟩
        (fun _ => some ⟨9⟩) ⟨"DigitalContent", "9"⟩
      = .ok (some ⟨9⟩) :=
  ⟨channel_agnostic_lookup_direct.2.1 ⟨[]⟩ ⟨none⟩ (fun _ => none)
      (fun _ => some ⟨5, "chairs"⟩) none (some "chairs") rfl
      (fun gid h => nomatch h),
   channel_agnostic_lookup_direct.2.2.2 ⟨[]⟩ ⟨none⟩ (fun _ => some ⟨9⟩)
      ⟨"DigitalContent", "9"⟩ rfl⟩

/-- C7: Every query taking a global identifier (category, collection,
product type, digital content) decodes it against the expected entity type
and fails with `InvalidGlobalId` whenever the encoded type differs (for
collection, once the channel has resolved, since the source decodes after
channel resolution). -/
theorem global_id_decoded_against_expected_type :
    (∀ (r : Requestor) (cfg : SiteConfig)
        (byId : String → Option Category)
        (bySlug : String → Option Category) (gid : GlobalId),
      gid.ty ≠ "Category" →
      ProductQueries.resolve_category r cfg byId bySlug (some gid) none =
        .error (.invalidGlobalId gid.ty "Category"))
    ∧ (∀ (r : Requestor) (cfg : SiteConfig)
        (byId : String → Option String → Requestor → Option Collection)
        (bySlug : Option String → Option String → Requestor →
          Option Collection)
        (gid : GlobalId) (channel ch : Option String),
      resolve_channel_spec r channel cfg = .ok ch →
      gid.ty ≠ "Collection" →
      ProductQueries.resolve_collection r cfg byId bySlug (some gid) none
          channel =
        .error (.invalidGlobalId gid.ty "Collection"))
    ∧ (∀ (r : Requestor) (cfg : SiteConfig)
        (byId : String → Option ProductType) (gid : GlobalId),
      gid.ty ≠ "ProductType" →
      ProductQueries.resolve_product_type r cfg byId gid =
        .error (.invalidGlobalId gid.ty "ProductType"))
    ∧ (∀ (r : Requestor) (cfg : SiteConfig)
        (byId : String → Option DigitalContent) (gid : GlobalId),
      gid.ty ≠ "DigitalContent" →
      ProductQueries.resolve_digital_content r cfg byId gid =
        .error (.invalidGlobalId gid.ty "DigitalContent")) := by
  refine ⟨?_, ?_, ?_, ?_⟩
  · intro r cfg byId bySlug gid hty
    unfold ProductQueries.resolve_category
    simp [validate_one_of_args_is_in_query, from_global_id_or_error, hty,
      except_ok_bind, except_error_bind, pure, Except.pure]
  · intro r cfg byId bySlug gid channel ch hch hty
    rw [resolve_collection_eq_spec]
    unfold resolve_collection_spec
    rw [hch]
    simp [validate_one_of_args_is_in_query, from_global_id_or_error, hty,
      except_ok_bind, except_error_bind, pure, Except.pure]
  · intro r cfg byId gid hty
    unfold ProductQueries.resolve_product_type
    simp [from_global_id_or_error, hty, except_ok_bind, except_error_bind,
      pure, Except.pure]
  · intro r cfg byId gid hty
    unfold ProductQueries.resolve_digital_content
    simp [from_global_id_or_error, hty, except_ok_bind, except_error_bind,
      pure, Except.pure]

/-- Witness for C7 at concrete requests: ids of the wrong encoded type make
each of the four lookups fail with `InvalidGlobalId`. -/
theorem global_id_decoded_against_expected_type_witness :
    ProductQueries.resolve_category ⟨[]⟩ ⟨none⟩ (fun _ => none)
        (fun _ => none) (some ⟨"Product", "1"⟩) none
      = .error (.invalidGlobalId "Product" "Category")
    ∧ ProductQueries.resolve_collection ⟨[]⟩ ⟨some "default-channel"⟩
        (fun _ _ _ => none) (fun _ _ _ => none) (some ⟨"Product", "1"⟩)
        none none
      = .error (.invalidGlobalId "Product" "Collection")
    ∧ ProductQueries.resolve_product_type ⟨[]⟩ ⟨none⟩ (fun _ => none)
        ⟨"Category", "1"⟩
      = .error (.invalidGlobalId "Category" "ProductType")
    ∧ ProductQueries.resolve_digital_content ⟨[]⟩ ⟨none⟩ (fun _ => none)
        ⟨"Category", "1"⟩
      = .error (.invalidGlobalId "Category" "DigitalContent") :=
  ⟨global_id_decoded_against_expected_type.1 ⟨[]⟩ ⟨none⟩ (fun _ => none)
      (fun _ => none) ⟨"Product", "1"⟩ (by decide),
   global_id_decoded_against_expected_type.2.1 ⟨[]⟩
      ⟨some "default-channel"⟩ (fun _ _ _ => none) (fun _ _ _ => none)
      ⟨"Product", "1"⟩ none (some "default-channel") rfl (by decide),
   global_id_decoded_against_expected_type.2.2.1 ⟨[]⟩ ⟨none⟩
      (fun _ => none) ⟨"Category", "1"⟩ (by decide),
   global_id_decoded_against_expected_type.2.2.2 ⟨[]⟩ ⟨none⟩
      (fun _ => none) ⟨"Category", "1"⟩ (by decide)⟩

/-- C10: The categories list query performs no permission check and no
channel resolution — the request context (requestor and configuration) is
immaterial: any two requestors issuing the query with identical level,
filter and pagination arguments over the same underlying data receive the
identical connection. -/
theorem categories_requestor_independent :
    ∀ (r r' : Requestor) (cfg cfg' : SiteConfig)
      (fn : Option Int → List Category)
      (level : Option Int) (kwargs : CategoriesKwargs),
      ProductQueries.resolve_categories r cfg fn level kwargs =
        ProductQueries.resolve_categories r' cfg' fn level kwargs :=
  fun _ _ _ _ _ _ _ => rfl

theorem mkEdges_map_node {α : Type} (s : Nat) (l : List α) :
    (mkEdges s l).map Edge.node = l := by
  induction l generalizing s with
  | nil => rfl
  | cons a as ih => simp [mkEdges, ih]

/-- The nodes of a connection slice are a sublist of the sliced collection,
so any pairwise ordering of the collection carries over to the page. -/
theorem slice_nodes_pairwise {α : Type} (rel : α → α → Prop)
    (l : List α) (first after : Option Nat) (hl : l.Pairwise rel) :
    ((create_connection_slice l first after).edges.map
      Edge.node).Pairwise rel := by
  unfold create_connection_slice
  simp only [mkEdges_map_node]
  exact hl.sublist ((List.take_sublist _ _).trans
    ((List.take_sublist _ _).trans (List.drop_sublist _ _)))

theorem pairwise_insertionSort_rankOrder (l : List Product) :
    (l.insertionSort rankOrder).Pairwise rankOrder :=
  List.sorted_insertionSort rankOrder l

/-- With a search string present and no explicit sort, `resolve_products`
injects the default rank sort and the engine orders the collection by
`rankOrder`. -/
theorem resolve_products_default_rank_sort (r : Requestor)
    (cfg : SiteConfig) (fn : Requestor → Option String → List Product)
    (channel : Option String) (kwargs : ProductsKwargs)
    (ch : Option String)
    (hsearch : search_string_in_kwargs kwargs = true)
    (hsort : sort_field_from_kwargs kwargs = none)
    (hch : resolve_channel_spec r channel cfg = .ok ch) :
    ProductQueries.resolve_products r cfg fn channel kwargs =
      .ok (create_connection_slice
        ((apply_product_filter kwargs.filter (fn r ch)).insertionSort
          rankOrder)
        kwargs.first kwargs.after) := by
  rw [resolve_products_eq_spec]
  unfold resolve_products_spec
  simp only [hsearch, hsort, hch]
  simp [except_ok_bind, pure, Except.pure, filter_connection_queryset,
    apply_product_sort, ProductOrderField.RANK]

/-- C4: A products list query carrying a (non-blank) search predicate and
no explicit sort returns its page ordered by descending relevance rank
with ascending identifier as tie-break (`rankOrder`); the resolver is a
pure function of its arguments, so repeated identical calls yield the
identical result. -/
theorem search_without_sort_defaults_to_rank (r : Requestor)
    (cfg : SiteConfig) (fn : Requestor → Option String → List Product)
    (channel : Option String) (kwargs : ProductsKwargs)
    (ch : Option String)
    (hsearch : search_string_in_kwargs kwargs = true)
    (hsort : sort_field_from_kwargs kwargs = none)
    (hch : resolve_channel_spec r channel cfg = .ok ch) :
    ∃ conn,
      ProductQueries.resolve_products r cfg fn channel kwargs = .ok conn
      ∧ (conn.edges.map Edge.node).Pairwise rankOrder :=
  ⟨_, resolve_products_default_rank_sort r cfg fn channel kwargs ch
      hsearch hsort hch,
    slice_nodes_pairwise rankOrder _ kwargs.first kwargs.after
      (pairwise_insertionSort_rankOrder _)⟩

/-- Witness for C4 at a concrete request: a search for "chair" with no
explicit sort over three products. -/
theorem search_without_sort_defaults_to_rank_witness :
    search_string_in_kwargs
        ⟨some ⟨some "chair", none⟩, none, none, none, none⟩ = true
    ∧ sort_field_from_kwargs
        ⟨some ⟨some "chair", none⟩, none, none, none, none⟩ = none
    ∧ ∃ conn,
        ProductQueries.resolve_products ⟨[]⟩ ⟨some "default-channel"⟩
            (fun _ _ => [⟨1, 2, true⟩, ⟨2, 5, true⟩, ⟨3, 5, true⟩]) none
            ⟨some ⟨some "chair", none⟩, none, none, none, none⟩
          = .ok conn
        ∧ (conn.edges.map Edge.node).Pairwise rankOrder :=
  ⟨by decide, by decide,
    search_without_sort_defaults_to_rank ⟨[]⟩ ⟨some "default-channel"⟩
      (fun _ _ => [⟨1, 2, true⟩, ⟨2, 5, true⟩, ⟨3, 5, true⟩]) none
      ⟨some ⟨some "chair", none⟩, none, none, none, none⟩
      (some "default-channel") (by decide) (by decide) rfl⟩

/-- A search string that strips to the empty string makes
`search_string_in_kwargs` false. -/
theorem blank_search_is_no_search (kwargs : ProductsKwargs) (s : String)
    (h1 : (kwargs.filter.getD ⟨none, none⟩).search = some s)
    (h2 : strip s = "") :
    search_string_in_kwargs kwargs = false := by
  unfold search_string_in_kwargs
  simp [h1, h2]

/-- C9: A search filter whose search string is empty or whitespace-only is
treated as if no search predicate were present: requesting the rank sort
fails with the validation error, and with no explicit sort no default rank
sort is injected — the pipeline runs on the kwargs unchanged. -/
theorem blank_search_treated_as_absent (r : Requestor) (cfg : SiteConfig)
    (fn : Requestor → Option String → List Product)
    (channel : Option String) (kwargs : ProductsKwargs) (s : String)
    (h1 : (kwargs.filter.getD ⟨none, none⟩).search = some s)
    (h2 : strip s = "") :
    (sort_field_from_kwargs kwargs = some ProductOrderField.RANK →
      ProductQueries.resolve_products r cfg fn channel kwargs =
        .error (.graphQLError
          "Sorting by RANK is available only when using a search filter."))
    ∧ (kwargs.sort_by = none →
      ProductQueries.resolve_products r cfg fn channel kwargs =
        Except.map
          (fun ch => create_connection_slice
            (filter_connection_queryset (fn r ch)
              { kwargs with channel := ch })
            kwargs.first kwargs.after)
          (resolve_channel_spec r channel cfg)) := by
  have hsearch := blank_search_is_no_search kwargs s h1 h2
  constructor
  · intro hsort
    exact resolve_products_rank_error r cfg fn channel kwargs hsort hsearch
  · intro hsb
    have hsf : sort_field_from_kwargs kwargs = none := by
      simp [sort_field_from_kwargs, hsb]
    rw [resolve_products_eq_spec]
    unfold resolve_products_spec
    simp only [hsearch, hsf]
    rcases resolve_channel_spec_cases r channel cfg with ⟨ch, hch⟩ | hch <;>
      simp [hch, except_ok_bind, except_error_bind, pure, Except.pure,
        Except.map]

/-- Witness for C9 at a concrete request: a whitespace-only search string
with no explicit sort leaves the pipeline without an injected rank sort. -/
theorem blank_search_treated_as_absent_witness :
    strip "   " = ""
    ∧ ProductQueries.resolve_products ⟨[]⟩ ⟨some "default-channel"⟩
        (fun _ _ => [⟨2, 0, true⟩, ⟨1, 0, true⟩]) none
        ⟨some ⟨some "   ", none⟩, none, none, none, none⟩
      = Except.map
          (fun ch => create_connection_slice
            (filter_connection_queryset
              ((fun (_ : Requestor) (_ : Option String) =>
                  [(⟨2, 0, true⟩ : Product), ⟨1, 0, true⟩]) ⟨[]⟩ ch)
              { (⟨some ⟨some "   ", none⟩, none, none, none, none⟩ :
                  ProductsKwargs) with channel := ch })
            none none)
          (resolve_channel_spec ⟨[]⟩ none ⟨some "default-channel"⟩) :=
  ⟨by decide,
    (blank_search_treated_as_absent ⟨[]⟩ ⟨some "default-channel"⟩
        (fun _ _ => [⟨2, 0, true⟩, ⟨1, 0, true⟩]) none
        ⟨some ⟨some "   ", none⟩, none, none, none, none⟩ "   "
        rfl (by decide)).2 rfl⟩

/-- A slice without a requested count returns every item after the
cursor. -/
theorem slice_rest_nodes {α : Type} (l : List α) (c : Nat) :
    (create_connection_slice l none (some c)).edges.map Edge.node =
      l.drop (c + 1) := by
  simp only [create_connection_slice, sliceStart, Option.getD_none,
    mkEdges_map_node]
  rw [List.take_take]
  have h1 : min (l.drop (c + 1)).length ((l.drop (c + 1)).length + 1) =
      (l.drop (c + 1)).length := by omega
  rw [h1, List.take_length]

/-- A slice without a requested count is the final page: its has-next flag
is false. -/
theorem slice_rest_hasNext {α : Type} (l : List α) (c : Nat) :
    (create_connection_slice l none (some c)).pageInfo.hasNextPage =
      false := by
  simp only [create_connection_slice, sliceStart, Option.getD_none]
  simp [List.length_take]

/-- The nodes of a forward slice are the first `n` items after the
cursor. -/
theorem slice_first_nodes {α : Type} (l : List α) (n : Nat)
    (a : Option Nat) :
    (create_connection_slice l (some n) a).edges.map Edge.node =
      (l.drop (sliceStart a)).take n := by
  simp only [create_connection_slice, Option.getD_some, mkEdges_map_node]
  rw [List.take_take]
  congr 1
  omega

/-- The end cursor of a forward slice pins down the page: the page is
nonempty and the position after the cursor is the start position plus the
page length. -/
theorem slice_first_endCursor {α : Type} (l : List α) (n : Nat)
    (a : Option Nat) (c : Nat)
    (hc : (create_connection_slice l (some n) a).pageInfo.endCursor =
      some c) :
    (l.drop (sliceStart a)).take n ≠ []
    ∧ c + 1 = sliceStart a + ((l.drop (sliceStart a)).take n).length := by
  simp only [create_connection_slice, Option.getD_some] at hc
  rw [List.take_take] at hc
  have hmin : min n (n + 1) = n := by omega
  rw [hmin] at hc
  by_cases hemp : (l.drop (sliceStart a)).take n = []
  · rw [if_pos (by simpa using hemp)] at hc
    cases hc
  · have hlen : 0 < ((l.drop (sliceStart a)).take n).length :=
      List.length_pos.mpr hemp
    rw [if_neg (by simpa using hemp)] at hc
    have h2 := Option.some.inj hc
    exact ⟨hemp, by omega⟩

/-- C8: Cursor-pagination round trip for the forward direction: when a
page of `first = n` items carries end cursor `c`, requesting `after = c`
returns exactly the items following that page under the same ordering (the
page plus the continuation reassemble the sliced collection), the
continuation is the final page (has-next false), and a page of `n` items
out of a strictly larger remainder reports has-next true.  The engine is a
pure function, so repeating the identical call yields the identical
result. -/
theorem cursor_pagination_roundtrip {α : Type} (l : List α) (n : Nat)
    (a : Option Nat) (c : Nat)
    (hc : (create_connection_slice l (some n) a).pageInfo.endCursor =
      some c) :
    ((create_connection_slice l none (some c)).edges.map Edge.node =
      l.drop (c + 1))
    ∧ ((create_connection_slice l (some n) a).edges.map Edge.node
        ++ l.drop (c + 1)
      = l.drop (sliceStart a))
    ∧ (create_connection_slice l none (some c)).pageInfo.hasNextPage =
        false
    ∧ (n < (l.drop (sliceStart a)).length →
        (create_connection_slice l (some n) a).pageInfo.hasNextPage =
          true) := by
  obtain ⟨hne, hcl⟩ := slice_first_endCursor l n a c hc
  refine ⟨slice_rest_nodes l c, ?_, slice_rest_hasNext l c, ?_⟩
  · rw [slice_first_nodes, hcl, ← List.drop_drop]
    rcases Nat.le_total n (l.drop (sliceStart a)).length with hle | hge
    · rw [List.length_take, Nat.min_eq_left hle]
      exact List.take_append_drop n _
    · rw [List.take_of_length_le hge]
      simp [List.drop_length]
      omega
  · intro hlt
    simp only [create_connection_slice, Option.getD_some,
      List.length_take]
    have hm : min (n + 1) (l.drop (sliceStart a)).length = n + 1 := by
      omega
    rw [hm]
    simp

/-- Witness for C8 on the spec's own example: `first = 2` over five items
returns two edges with end cursor 1 and has-next true; `after = 1` returns
the remaining three with has-next false, reassembling the collection. -/
theorem cursor_pagination_roundtrip_witness :
    (create_connection_slice
        [(⟨1, 0, true⟩ : Product), ⟨2, 0, true⟩, ⟨3, 0, true⟩,
         ⟨4, 0, true⟩, ⟨5, 0, true⟩] (some 2) none).pageInfo.endCursor =
      some 1
    ∧ (((create_connection_slice
          [(⟨1, 0, true⟩ : Product), ⟨2, 0, true⟩, ⟨3, 0, true⟩,
           ⟨4, 0, true⟩, ⟨5, 0, true⟩] none
          (some 1)).edges.map Edge.node =
        ([(⟨1, 0, true⟩ : Product), ⟨2, 0, true⟩, ⟨3, 0, true⟩,
          ⟨4, 0, true⟩, ⟨5, 0, true⟩]).drop 2)
      ∧ ((create_connection_slice
            [(⟨1, 0, true⟩ : Product), ⟨2, 0, true⟩, ⟨3, 0, true⟩,
             ⟨4, 0, true⟩, ⟨5, 0, true⟩] (some 2) none).edges.map
            Edge.node
          ++ ([(⟨1, 0, true⟩ : Product), ⟨2, 0, true⟩, ⟨3, 0, true⟩,
               ⟨4, 0, true⟩, ⟨5, 0, true⟩]).drop 2
        = [(⟨1, 0, true⟩ : Product), ⟨2, 0, true⟩, ⟨3, 0, true⟩,
           ⟨4, 0, true⟩, ⟨5, 0, true⟩])
      ∧ (create_connection_slice
          [(⟨1, 0, true⟩ : Product), ⟨2, 0, true⟩, ⟨3, 0, true⟩,
           ⟨4, 0, true⟩, ⟨5, 0, true⟩] none
          (some 1)).pageInfo.hasNextPage = false
      ∧ (2 < ([(⟨1, 0, true⟩ : Product), ⟨2, 0, true⟩, ⟨3, 0, true⟩,
               ⟨4, 0, true⟩, ⟨5, 0, true⟩] : List Product).length →
          (create_connection_slice
            [(⟨1, 0, true⟩ : Product), ⟨2, 0, true⟩, ⟨3, 0, true⟩,
             ⟨4, 0, true⟩, ⟨5, 0, true⟩] (some 2)
            none).pageInfo.hasNextPage = true)) :=
  ⟨by decide,
    cursor_pagination_roundtrip
      [(⟨1, 0, true⟩ : Product), ⟨2, 0, true⟩, ⟨3, 0, true⟩,
       ⟨4, 0, true⟩, ⟨5, 0, true⟩] 2 none 1 (by decide)⟩

end SaleorProduct
